import Mathlib

/-!
Shallow embedding of the password strength checker
(src/PasswordChecker.ts, two variants, and src/Validators.ts).

A password is a list of characters; JavaScript string operations are
modelled on lists: regex presence tests become `List.any`, `includes`
becomes substring containment, `toLowerCase` is ASCII lowercasing
(the only case mapping the source's data exercises).  Scores are
natural numbers per rule; the aggregate is computed in `Int` because
penalties may exceed bonuses before the clamp.
-/

namespace PasswordStrength

abbrev Password := List Char

/-- ASCII lowercasing of one character, as `String.prototype.toLowerCase`
behaves on the ASCII range used by the static lists. -/
def asciiLower (c : Char) : Char :=
  if 65 ≤ c.toNat ∧ c.toNat ≤ 90 then Char.ofNat (c.toNat + 32) else c

/-- Model of `password.toLowerCase()`. -/
def toLowerCase (p : Password) : Password := p.map asciiLower

/-- Model of prefix test used to define substring containment:
`startsWithL s pat` holds when `pat` is an initial segment of `s`. -/
def startsWithL : Password → Password → Bool
  | _, [] => true
  | [], _ :: _ => false
  | c :: s, d :: t => c == d && startsWithL s t

/-- Model of JavaScript `haystack.includes(needle)`. -/
def containsL : Password → Password → Bool
  | [], pat => pat.isEmpty
  | c :: s, pat => startsWithL (c :: s) pat || containsL s pat

/-- Character class `[a-z]` of the source's regexes. -/
def isLowerAZ (c : Char) : Bool := 97 ≤ c.toNat && c.toNat ≤ 122

/-- Character class `[A-Z]`. -/
def isUpperAZ (c : Char) : Bool := 65 ≤ c.toNat && c.toNat ≤ 90

/-- Character class `\d`, i.e. `[0-9]`. -/
def isDigit09 (c : Char) : Bool := 48 ≤ c.toNat && c.toNat ≤ 57

/-- Code points of the literal special-character class in
`hasSpecialChars`: the 30 characters of the regex
`[!@#$%^&*()_+\-=\[\]{};':"\\|,.<>\/?]` in source order. -/
def specialCharCodes : List Nat :=
  [33, 64, 35, 36, 37, 94, 38, 42, 40, 41,
   95, 43, 45, 61, 91, 93, 123, 125, 59, 39,
   58, 34, 92, 124, 44, 46, 60, 62, 47, 63]

/-- Membership in the literal special-character class. -/
def isSpecialListed (c : Char) : Bool := decide (c.toNat ∈ specialCharCodes)

/-- Character class `[^a-zA-Z0-9]` used by `checkCharacterVariety`
and by the entropy-style crack-time estimator. -/
def isNonAlnum (c : Char) : Bool := !(isLowerAZ c || isUpperAZ c || isDigit09 c)

/-- `checkLength` — identical in Validators.ts and in both
PasswordChecker variants: 0 chars → 0, under 6 → 5, under 8 → 10,
under 12 → 20, otherwise 30. -/
def checkLength (p : Password) : Nat :=
  if p.length = 0 then 0
  else if p.length < 6 then 5
  else if p.length < 8 then 10
  else if p.length < 12 then 20
  else 30

/-- `hasLowercase` — 10 when `/[a-z]/` matches, else 0. -/
def hasLowercase (p : Password) : Nat := if p.any isLowerAZ then 10 else 0

/-- `hasUppercase` — 10 when `/[A-Z]/` matches, else 0. -/
def hasUppercase (p : Password) : Nat := if p.any isUpperAZ then 10 else 0

/-- `hasNumbers` — 10 when `/\d/` matches, else 0. -/
def hasNumbers (p : Password) : Nat := if p.any isDigit09 then 10 else 0

/-- `hasSpecialChars` — 15 when the literal special-character class
matches, else 0.  Identical in Validators.ts and both variants. -/
def hasSpecialChars (p : Password) : Nat := if p.any isSpecialListed then 15 else 0

/-- Loop body of `checkRepeatingChars`: walks the password keeping the
previous character, the current run length and the accumulated penalty;
every position extending a run to length 3 or more adds 5. -/
def repeatGo : Char → Nat → Nat → Password → Nat
  | _, _, penalty, [] => penalty
  | prev, runLen, penalty, c :: rest =>
    if c == prev then
      if 3 ≤ runLen + 1 then repeatGo c (runLen + 1) (penalty + 5) rest
      else repeatGo c (runLen + 1) penalty rest
    else repeatGo c 1 penalty rest

/-- `checkRepeatingChars` — identical in Validators.ts and both
variants: scan for runs of equal adjacent characters, 5 per qualifying
position, capped at 15. -/
def checkRepeatingChars (p : Password) : Nat :=
  if p.length < 3 then 0
  else
    match p with
    | [] => 0
    | c :: rest => Nat.min (repeatGo c 1 0 rest) 15

/-- One sliding pass of the `charCodeAt` loop in `checkSequentialChars`:
true when some window of 3 consecutive characters is strictly ascending
by 1 or strictly descending by 1 in code points (the source adds a flat
5 and breaks at the first such window). -/
def seqRunCheck : Password → Bool
  | c1 :: c2 :: c3 :: rest =>
    ((c2.toNat == c1.toNat + 1) && (c3.toNat == c2.toNat + 1)) ||
    ((c2.toNat + 1 == c1.toNat) && (c3.toNat + 1 == c2.toNat)) ||
    seqRunCheck (c2 :: c3 :: rest)
  | _ => false

/-- `checkCharacterVariety` — identical in Validators.ts and both
variants: count of distinct classes present among lower, upper, digit
and non-alphanumeric; 4 → 10, 3 → 5, 2 → 2, otherwise 0. -/
def checkCharacterVariety (p : Password) : Nat :=
  if ((if p.any isLowerAZ then 1 else 0) + (if p.any isUpperAZ then 1 else 0)
      + (if p.any isDigit09 then 1 else 0) + (if p.any isNonAlnum then 1 else 0)) = 4 then 10
  else if ((if p.any isLowerAZ then 1 else 0) + (if p.any isUpperAZ then 1 else 0)
      + (if p.any isDigit09 then 1 else 0) + (if p.any isNonAlnum then 1 else 0)) = 3 then 5
  else if ((if p.any isLowerAZ then 1 else 0) + (if p.any isUpperAZ then 1 else 0)
      + (if p.any isDigit09 then 1 else 0) + (if p.any isNonAlnum then 1 else 0)) = 2 then 2
  else 0

/-- Strength levels, in the order of the `StrengthLevel` enum. -/
inductive StrengthLevel where
  | EMPTY
  | VERY_WEAK
  | WEAK
  | MEDIUM
  | STRONG
  | VERY_STRONG
deriving DecidableEq

/-- Rank of a strength level in the declared order, used to state
monotonicity of the score-to-level mapping. -/
def levelRank : StrengthLevel → Nat
  | .EMPTY => 0
  | .VERY_WEAK => 1
  | .WEAK => 2
  | .MEDIUM => 3
  | .STRONG => 4
  | .VERY_STRONG => 5

/-- The `criteria` record of `PasswordAnalysis`, eight named booleans. -/
structure Criteria where
  length : Bool
  hasLowercase : Bool
  hasUppercase : Bool
  hasNumbers : Bool
  hasSpecialChars : Bool
  noRepeatingChars : Bool
  notWeakPassword : Bool
  noSequentialChars : Bool
deriving DecidableEq

/-- The `ValidationResults` record of raw rule outputs. -/
structure ValidationResults where
  length : Nat
  hasLowercase : Nat
  hasUppercase : Nat
  hasNumbers : Nat
  hasSpecialChars : Nat
  repeatingCharsPenalty : Nat
  weakPasswordPenalty : Nat
  sequentialCharsPenalty : Nat
  varietyBonus : Nat
deriving DecidableEq

/-- The `PasswordAnalysis` record returned by `analyze`. -/
structure PasswordAnalysis where
  score : Int
  level : StrengthLevel
  criteria : Criteria
  feedback : List String
  suggestions : List String
deriving DecidableEq

/-- `Math.max(0, Math.min(totalScore, 100))`. -/
def clamp01to100 (x : Int) : Int := max 0 (min x 100)

/-- Raw (pre-clamp) total: sum of the six bonus contributions minus
the sum of the three penalties, as both `analyze` variants compute it. -/
def rawTotal (v : ValidationResults) : Int :=
  ((v.length : Int) + (v.hasLowercase : Int) + (v.hasUppercase : Int)
    + (v.hasNumbers : Int) + (v.hasSpecialChars : Int) + (v.varietyBonus : Int))
  - ((v.repeatingCharsPenalty : Int) + (v.weakPasswordPenalty : Int)
    + (v.sequentialCharsPenalty : Int))

/-- The eight `criteria` booleans as both `analyze` variants derive them
from the raw validation results. -/
def criteriaOf (v : ValidationResults) : Criteria where
  length := decide (20 ≤ v.length)
  hasLowercase := decide (0 < v.hasLowercase)
  hasUppercase := decide (0 < v.hasUppercase)
  hasNumbers := decide (0 < v.hasNumbers)
  hasSpecialChars := decide (0 < v.hasSpecialChars)
  noRepeatingChars := decide (v.repeatingCharsPenalty = 0)
  notWeakPassword := decide (v.weakPasswordPenalty = 0)
  noSequentialChars := decide (v.sequentialCharsPenalty = 0)

namespace Validators

/-- `WEAK_PASSWORDS` of Validators.ts, 31 entries in source order. -/
def WEAK_PASSWORDS : List Password :=
  [String.toList "password", String.toList "123456", String.toList "12345678",
   String.toList "123456789", String.toList "qwerty",
   String.toList "abc123", String.toList "password1", String.toList "admin",
   String.toList "letmein", String.toList "welcome",
   String.toList "monkey", String.toList "football", String.toList "iloveyou",
   String.toList "123123", String.toList "1234",
   String.toList "12345", String.toList "1234567", String.toList "sunshine",
   String.toList "master", String.toList "hello",
   String.toList "charlie", String.toList "aa123456", String.toList "donald",
   String.toList "password123", String.toList "qwerty123",
   String.toList "admin123", String.toList "pass", String.toList "test",
   String.toList "guest", String.toList "temp", String.toList "user"]

/-- `SEQUENTIAL_PATTERNS` of Validators.ts, 27 entries in source order. -/
def SEQUENTIAL_PATTERNS : List Password :=
  [String.toList "12345", String.toList "23456", String.toList "34567",
   String.toList "45678", String.toList "56789", String.toList "67890",
   String.toList "abcdef", String.toList "bcdefg", String.toList "cdefgh",
   String.toList "defghi", String.toList "efghij", String.toList "fghijk",
   String.toList "ghijkl", String.toList "hijklm", String.toList "ijklmn",
   String.toList "jklmno", String.toList "klmnop", String.toList "lmnopq",
   String.toList "mnopqr", String.toList "nopqrs", String.toList "opqrst",
   String.toList "pqrstu", String.toList "qrstuv", String.toList "rstuvw",
   String.toList "stuvwx", String.toList "tuvwxy", String.toList "uvwxyz"]

/-- `checkWeakPassword` of Validators.ts: exact case-insensitive match
against `WEAK_PASSWORDS` → 20; otherwise containment of a listed entry
of length at least 4 → 15; otherwise 0. -/
def checkWeakPassword (p : Password) : Nat :=
  if WEAK_PASSWORDS.any (fun w => w == toLowerCase p) then 20
  else if WEAK_PASSWORDS.any
      (fun w => containsL (toLowerCase p) w && decide (4 ≤ w.length)) then 15
  else 0

/-- `checkSequentialChars` of Validators.ts: 10 per pattern of
`SEQUENTIAL_PATTERNS` contained in the lowercased password, plus a flat
5 when some 3-character window ascends or descends by 1 in code points,
capped at 15. -/
def checkSequentialChars (p : Password) : Nat :=
  Nat.min
    (10 * ((SEQUENTIAL_PATTERNS.filter
        (fun pat => containsL (toLowerCase p) pat)).length)
      + (if seqRunCheck p then 5 else 0))
    15

/-- `runAllValidations` of Validators.ts. -/
def runAllValidations (p : Password) : ValidationResults where
  length := checkLength p
  hasLowercase := hasLowercase p
  hasUppercase := hasUppercase p
  hasNumbers := hasNumbers p
  hasSpecialChars := hasSpecialChars p
  repeatingCharsPenalty := checkRepeatingChars p
  weakPasswordPenalty := checkWeakPassword p
  sequentialCharsPenalty := checkSequentialChars p
  varietyBonus := checkCharacterVariety p

end Validators

namespace PasswordChecker

/-- Inline `weakPasswords` list of the first (English) PasswordChecker
variant, 20 entries in source order. -/
def weakPasswords : List Password :=
  [String.toList "password", String.toList "123456", String.toList "12345678",
   String.toList "123456789", String.toList "qwerty",
   String.toList "abc123", String.toList "password1", String.toList "admin",
   String.toList "letmein", String.toList "welcome",
   String.toList "monkey", String.toList "football", String.toList "iloveyou",
   String.toList "123123", String.toList "1234",
   String.toList "12345", String.toList "1234567", String.toList "sunshine",
   String.toList "master", String.toList "hello"]

/-- Inline `sequentialPatterns` list of the first variant, 21 entries. -/
def sequentialPatterns : List Password :=
  [String.toList "12345", String.toList "23456", String.toList "34567",
   String.toList "45678", String.toList "56789", String.toList "67890",
   String.toList "abcdef", String.toList "bcdefg", String.toList "cdefgh",
   String.toList "defghi", String.toList "efghij", String.toList "fghijk",
   String.toList "ghijkl", String.toList "hijklm", String.toList "ijklmn",
   String.toList "jklmno", String.toList "klmnop", String.toList "lmnopq",
   String.toList "mnopqr", String.toList "nopqrs", String.toList "opqrst"]

/-- `PasswordChecker.checkWeakPassword` of the first variant — same body
as Validators.ts but over the shorter inline list. -/
def checkWeakPassword (p : Password) : Nat :=
  if weakPasswords.any (fun w => w == toLowerCase p) then 20
  else if weakPasswords.any
      (fun w => containsL (toLowerCase p) w && decide (4 ≤ w.length)) then 15
  else 0

/-- `PasswordChecker.checkSequentialChars` of the first variant — same
body as Validators.ts but over the shorter inline pattern list. -/
def checkSequentialChars (p : Password) : Nat :=
  Nat.min
    (10 * ((sequentialPatterns.filter
        (fun pat => containsL (toLowerCase p) pat)).length)
      + (if seqRunCheck p then 5 else 0))
    15

/-- `PasswordChecker.runAllValidations` of the first variant: the shared
evaluators plus the variant's own weak and sequential checks. -/
def runAllValidations (p : Password) : ValidationResults where
  length := checkLength p
  hasLowercase := hasLowercase p
  hasUppercase := hasUppercase p
  hasNumbers := hasNumbers p
  hasSpecialChars := hasSpecialChars p
  repeatingCharsPenalty := checkRepeatingChars p
  weakPasswordPenalty := checkWeakPassword p
  sequentialCharsPenalty := checkSequentialChars p
  varietyBonus := checkCharacterVariety p

/-- `determineStrengthLevel` of the first variant: bands at
0, 20, 40, 60, 80. -/
def determineStrengthLevel (score : Int) : StrengthLevel :=
  if score = 0 then .EMPTY
  else if score < 20 then .VERY_WEAK
  else if score < 40 then .WEAK
  else if score < 60 then .MEDIUM
  else if score < 80 then .STRONG
  else .VERY_STRONG

/-- `getEmptyAnalysis` of the first variant. -/
def getEmptyAnalysis : PasswordAnalysis where
  score := 0
  level := .EMPTY
  criteria :=
    { length := false, hasLowercase := false, hasUppercase := false
      hasNumbers := false, hasSpecialChars := false, noRepeatingChars := false
      notWeakPassword := false, noSequentialChars := false }
  feedback := ["Please enter a password to analyze"]
  suggestions := ["Password should be at least 8 characters long"]

/-- Length-band message opening `generateFeedback` in the first variant. -/
def lengthFeedbackMsg (n : Nat) : String :=
  if n < 8 then
    "Password is too short (" ++ toString n ++ " characters). Minimum 8 characters recommended."
  else if n < 12 then
    "Password is medium length (" ++ toString n ++ " characters). 12+ characters is more secure."
  else
    "Good password length (" ++ toString n ++ " characters)."

/-- `Object.values(criteria).filter(Boolean).length`: how many of the
eight criteria hold. -/
def positiveCount (c : Criteria) : Nat :=
  (if c.length then 1 else 0) + (if c.hasLowercase then 1 else 0)
    + (if c.hasUppercase then 1 else 0) + (if c.hasNumbers then 1 else 0)
    + (if c.hasSpecialChars then 1 else 0) + (if c.noRepeatingChars then 1 else 0)
    + (if c.notWeakPassword then 1 else 0) + (if c.noSequentialChars then 1 else 0)

/-- `generateFeedback` of the first variant: the length message, then
one message per unmet criterion in the fixed source order, then a
closing message picked by the number of criteria met. -/
def generateFeedback (p : Password) (c : Criteria) : List String :=
  lengthFeedbackMsg p.length ::
  ((if c.hasLowercase then [] else
      ["Missing lowercase letters. Add some lowercase letters (a-z)."]) ++
   (if c.hasUppercase then [] else
      ["Missing uppercase letters. Add some uppercase letters (A-Z)."]) ++
   (if c.hasNumbers then [] else
      ["Missing numbers. Add some numbers (0-9)."]) ++
   (if c.hasSpecialChars then [] else
      ["Missing special characters. Add some special characters (!@#$%^&* etc.)."]) ++
   (if c.noRepeatingChars then [] else
      ["Contains repeating characters. Try to avoid character repetitions."]) ++
   (if c.notWeakPassword then [] else
      ["Password contains common words or patterns."]) ++
   (if c.noSequentialChars then [] else
      ["Contains sequential characters (like abc, 123)."]) ++
   (if 6 ≤ positiveCount c then
      ["Excellent! Your password meets most security criteria."]
    else if 4 ≤ positiveCount c then
      ["Good start! Your password could be stronger with more variety."]
    else []))

/-- `generateSuggestions` of the first variant: optional header below
score 50, a bullet per unmet criterion in the fixed source order, then
encouragements at scores 70 and 85. -/
def generateSuggestions (c : Criteria) (score : Int) : List String :=
  (if score < 50 then ["To strengthen your password:"] else []) ++
  (if c.length then [] else ["• Increase length to at least 12 characters"]) ++
  (if c.hasLowercase then [] else ["• Add lowercase letters (a-z)"]) ++
  (if c.hasUppercase then [] else ["• Add uppercase letters (A-Z)"]) ++
  (if c.hasNumbers then [] else ["• Add numbers (0-9)"]) ++
  (if c.hasSpecialChars then [] else ["• Add special characters (!@#$%^&* etc.)"]) ++
  (if c.noRepeatingChars then [] else
    ["• Avoid repeating the same character multiple times"]) ++
  (if c.notWeakPassword then [] else
    ["• Avoid common words and predictable patterns"]) ++
  (if c.noSequentialChars then [] else
    ["• Avoid sequential characters (abc, 123, etc.)"]) ++
  (if 70 ≤ score then ["Good job! Your password has decent security."] else []) ++
  (if 85 ≤ score then ["Excellent! Your password is very secure."] else [])

/-- `PasswordChecker.analyze` of the first variant.  `Math.round` on the
already-integral clamped score is the identity and is omitted. -/
def analyze (p : Password) : PasswordAnalysis :=
  if p.length = 0 then getEmptyAnalysis
  else
    { score := clamp01to100 (rawTotal (runAllValidations p))
      level := determineStrengthLevel (clamp01to100 (rawTotal (runAllValidations p)))
      criteria := criteriaOf (runAllValidations p)
      feedback := generateFeedback p (criteriaOf (runAllValidations p))
      suggestions := generateSuggestions (criteriaOf (runAllValidations p))
        (clamp01to100 (rawTotal (runAllValidations p))) }

end PasswordChecker

/-!
Second `PasswordChecker` variant (Turkish message texts), which
delegates its validations to Validators.ts.
-/

namespace PasswordCheckerV2

/-- `determineStrengthLevel` of the second variant: bands at
0, 30, 50, 70, 85. -/
def determineStrengthLevel (score : Int) : StrengthLevel :=
  if score = 0 then .EMPTY
  else if score < 30 then .VERY_WEAK
  else if score < 50 then .WEAK
  else if score < 70 then .MEDIUM
  else if score < 85 then .STRONG
  else .VERY_STRONG

/-- `getEmptyAnalysis` of the second variant. -/
def getEmptyAnalysis : PasswordAnalysis where
  score := 0
  level := .EMPTY
  criteria :=
    { length := false, hasLowercase := false, hasUppercase := false
      hasNumbers := false, hasSpecialChars := false, noRepeatingChars := false
      notWeakPassword := false, noSequentialChars := false }
  feedback := ["Lütfen bir parola girin"]
  suggestions := ["Parola uzunluğu en az 8 karakter olmalıdır"]

/-- Length-band message opening `generateFeedback` in the second variant. -/
def lengthFeedbackMsg (n : Nat) : String :=
  if n < 8 then
    "Parolanız çok kısa (" ++ toString n ++ " karakter). En az 8 karakter önerilir."
  else if n < 12 then
    "Parolanız orta uzunlukta (" ++ toString n ++ " karakter). 12+ karakter daha güvenlidir."
  else
    "Parolanız yeterli uzunlukta (" ++ toString n ++ " karakter)."

/-- `generateFeedback` of the second variant — same structure as the
first, Turkish texts. -/
def generateFeedback (p : Password) (c : Criteria) : List String :=
  lengthFeedbackMsg p.length ::
  ((if c.hasLowercase then [] else ["Küçük harf içermiyor. Küçük harf ekleyin."]) ++
   (if c.hasUppercase then [] else ["Büyük harf içermiyor. Büyük harf ekleyin."]) ++
   (if c.hasNumbers then [] else ["Rakam içermiyor. Rakam ekleyin."]) ++
   (if c.hasSpecialChars then [] else
      ["Özel karakter içermiyor. Özel karakter ekleyin."]) ++
   (if c.noRepeatingChars then [] else
      ["Tekrarlanan karakterler içeriyor. Tekrarları azaltın."]) ++
   (if c.notWeakPassword then [] else
      ["Yaygın kullanılan bir parola veya benzeri içeriyor."]) ++
   (if c.noSequentialChars then [] else
      ["Sıralı karakterler içeriyor (abc, 123 gibi)."]) ++
   (if 6 ≤ PasswordChecker.positiveCount c then
      ["Harika! Parolanız çoğu güvenlik kriterini karşılıyor."]
    else if 4 ≤ PasswordChecker.positiveCount c then
      ["İyi başlangıç! Ancak daha fazla güvenlik için geliştirilebilir."]
    else []))

/-- `generateSuggestions` of the second variant — same structure as the
first, Turkish texts. -/
def generateSuggestions (c : Criteria) (score : Int) : List String :=
  (if score < 50 then
    ["Parolanızı güçlendirmek için aşağıdaki önerileri uygulayın:"] else []) ++
  (if c.length then [] else ["• Parola uzunluğunu en az 12 karaktere çıkarın"]) ++
  (if c.hasLowercase then [] else ["• En az bir küçük harf ekleyin (a-z)"]) ++
  (if c.hasUppercase then [] else ["• En az bir büyük harf ekleyin (A-Z)"]) ++
  (if c.hasNumbers then [] else ["• En az bir rakam ekleyin (0-9)"]) ++
  (if c.hasSpecialChars then [] else
    ["• En az bir özel karakter ekleyin (!@#$%^&* gibi)"]) ++
  (if c.noRepeatingChars then [] else
    ["• Aynı karakteri arka arkaya tekrarlamaktan kaçının"]) ++
  (if c.notWeakPassword then [] else
    ["• Yaygın kullanılan kelimeler ve parolaları kullanmayın"]) ++
  (if c.noSequentialChars then [] else
    ["• Sıralı karakter dizilerinden kaçının (abc, 123 gibi)"]) ++
  (if 70 ≤ score then ["Güzel! Parolanız iyi bir güvenlik seviyesine sahip."] else []) ++
  (if 85 ≤ score then ["Mükemmel! Parolanız çok güçlü görünüyor."] else [])

/-- `PasswordChecker.analyze` of the second variant, which uses
`Validators.runAllValidations` and its own level thresholds. -/
def analyze (p : Password) : PasswordAnalysis :=
  if p.length = 0 then getEmptyAnalysis
  else
    { score := clamp01to100 (rawTotal (Validators.runAllValidations p))
      level := determineStrengthLevel
        (clamp01to100 (rawTotal (Validators.runAllValidations p)))
      criteria := criteriaOf (Validators.runAllValidations p)
      feedback := generateFeedback p (criteriaOf (Validators.runAllValidations p))
      suggestions := generateSuggestions (criteriaOf (Validators.runAllValidations p))
        (clamp01to100 (rawTotal (Validators.runAllValidations p))) }

end PasswordCheckerV2

/-- Canonical order of the feedback entries that may follow the opening
length message in the first variant's `generateFeedback`: the seven
unmet-criterion messages in source order, then the two closing
encouragement messages (at most one of which is ever emitted). -/
def feedbackTailTemplate : List String :=
  ["Missing lowercase letters. Add some lowercase letters (a-z).",
   "Missing uppercase letters. Add some uppercase letters (A-Z).",
   "Missing numbers. Add some numbers (0-9).",
   "Missing special characters. Add some special characters (!@#$%^&* etc.).",
   "Contains repeating characters. Try to avoid character repetitions.",
   "Password contains common words or patterns.",
   "Contains sequential characters (like abc, 123).",
   "Excellent! Your password meets most security criteria.",
   "Good start! Your password could be stronger with more variety."]

/-- Canonical order of all suggestion entries the first variant's
`generateSuggestions` can emit: the low-score header, the eight
unmet-criterion bullets in source order, then the two score-gated
encouragements. -/
def suggestionTemplate : List String :=
  ["To strengthen your password:",
   "• Increase length to at least 12 characters",
   "• Add lowercase letters (a-z)",
   "• Add uppercase letters (A-Z)",
   "• Add numbers (0-9)",
   "• Add special characters (!@#$%^&* etc.)",
   "• Avoid repeating the same character multiple times",
   "• Avoid common words and predictable patterns",
   "• Avoid sequential characters (abc, 123, etc.)",
   "Good job! Your password has decent security.",
   "Excellent! Your password is very secure."]

/-!
Theorems.  Each claim of the specification is settled below; helper
lemmas shared between claims come first.
-/

/-- The clamp always lands in the closed interval `[0, 100]`. -/
theorem clamp01to100_mem (x : Int) : 0 ≤ clamp01to100 x ∧ clamp01to100 x ≤ 100 := by
  unfold clamp01to100; omega

/-- The clamp does not raise a value that is already at most 85. -/
theorem clamp01to100_le_85 (x : Int) (h : x ≤ 85) : clamp01to100 x ≤ 85 := by
  unfold clamp01to100; omega

/-- C1: for every password, the score returned by both `analyze`
variants is an integer in the closed interval `[0, 100]`, and for a
non-empty password it is exactly the clamp to `[0, 100]` of the sum of
the bonus contributions minus the penalties. -/
theorem analyze_score_in_range (p : Password) :
    0 ≤ (PasswordChecker.analyze p).score ∧ (PasswordChecker.analyze p).score ≤ 100 ∧
    0 ≤ (PasswordCheckerV2.analyze p).score ∧ (PasswordCheckerV2.analyze p).score ≤ 100 ∧
    (p ≠ [] →
      (PasswordChecker.analyze p).score
          = clamp01to100 (rawTotal (PasswordChecker.runAllValidations p)) ∧
      (PasswordCheckerV2.analyze p).score
          = clamp01to100 (rawTotal (Validators.runAllValidations p))) := by
  by_cases h : p.length = 0
  · have hp : p = [] := List.length_eq_zero.mp h
    subst hp
    exact ⟨le_refl 0, by decide, le_refl 0, by decide, fun hne => absurd rfl hne⟩
  · simp only [PasswordChecker.analyze, PasswordCheckerV2.analyze, if_neg h]
    exact ⟨(clamp01to100_mem _).1, (clamp01to100_mem _).2,
      (clamp01to100_mem _).1, (clamp01to100_mem _).2, fun _ => ⟨by trivial, by trivial⟩⟩

/-- Witness for C1 at the concrete password "abc". -/
theorem analyze_score_in_range_witness :
    0 ≤ (PasswordChecker.analyze (String.toList "abc")).score ∧
    (PasswordChecker.analyze (String.toList "abc")).score
      = clamp01to100 (rawTotal (PasswordChecker.runAllValidations (String.toList "abc"))) :=
  ⟨(analyze_score_in_range (String.toList "abc")).1,
   ((analyze_score_in_range (String.toList "abc")).2.2.2.2 (by decide)).1⟩

/-- C2: on the empty password both variants return their fixed EMPTY
result: score 0, level EMPTY, all eight criteria false, exactly one
fixed feedback message and exactly one fixed suggestion.  The embedding
is a pure function, so repeated calls agree definitionally. -/
theorem analyze_empty_fixed :
    PasswordChecker.analyze [] = PasswordChecker.getEmptyAnalysis ∧
    PasswordChecker.getEmptyAnalysis.score = 0 ∧
    PasswordChecker.getEmptyAnalysis.level = StrengthLevel.EMPTY ∧
    PasswordChecker.getEmptyAnalysis.criteria
      = ⟨false, false, false, false, false, false, false, false⟩ ∧
    PasswordChecker.getEmptyAnalysis.feedback
      = ["Please enter a password to analyze"] ∧
    PasswordChecker.getEmptyAnalysis.suggestions
      = ["Password should be at least 8 characters long"] ∧
    PasswordCheckerV2.analyze [] = PasswordCheckerV2.getEmptyAnalysis ∧
    PasswordCheckerV2.getEmptyAnalysis.score = 0 ∧
    PasswordCheckerV2.getEmptyAnalysis.criteria
      = ⟨false, false, false, false, false, false, false, false⟩ :=
  ⟨rfl, rfl, rfl, rfl, rfl, rfl, rfl, rfl, rfl⟩

/-- C9: the non-empty password "12345" reaches score 0 and level EMPTY
in both variants (length bonus 5 and digit bonus 10 are outweighed by
the weak-list exact-match penalty 20 and the capped sequential penalty
15), so the EMPTY level is not exclusive to the empty input. -/
theorem nonempty_password_score_zero :
    (String.toList "12345").length = 5 ∧
    checkLength (String.toList "12345") = 5 ∧
    hasNumbers (String.toList "12345") = 10 ∧
    PasswordChecker.checkWeakPassword (String.toList "12345") = 20 ∧
    PasswordChecker.checkSequentialChars (String.toList "12345") = 15 ∧
    (PasswordChecker.analyze (String.toList "12345")).score = 0 ∧
    (PasswordChecker.analyze (String.toList "12345")).level = StrengthLevel.EMPTY ∧
    (PasswordCheckerV2.analyze (String.toList "12345")).score = 0 ∧
    (PasswordCheckerV2.analyze (String.toList "12345")).level = StrengthLevel.EMPTY := by
  decide

/-- C3: the code marks the length criterion met already at 8 characters
(raw length contribution 20), although the specification, the UI label
and the suggestion text promise it only from 12 characters (raw
contribution 30): the 8-character password "aaaaaaaa" has raw length
contribution 20 and both variants report `criteria.length = true`. -/
theorem criteria_length_met_at_8 :
    (String.toList "aaaaaaaa").length = 8 ∧
    checkLength (String.toList "aaaaaaaa") = 20 ∧
    (PasswordChecker.analyze (String.toList "aaaaaaaa")).criteria.length = true ∧
    (PasswordCheckerV2.analyze (String.toList "aaaaaaaa")).criteria.length = true := by
  decide

/-- C6 counterexample: the tilde is outside the alphanumeric set, yet
`hasSpecialChars` awards 0 to "a~b" because the tilde is not in the
literal special-character class of the regex. -/
theorem hasSpecialChars_misses_nonalnum :
    (String.toList "a~b").any isNonAlnum = true ∧
    hasSpecialChars (String.toList "a~b") = 0 := by
  decide

/-- C6 amended: `hasSpecialChars` returns 15 exactly when the password
contains a character of the literal 30-character special class of its
regex, and 0 otherwise; membership in that class is strictly stronger
than being outside the alphanumeric set. -/
theorem hasSpecialChars_spec (p : Password) :
    (hasSpecialChars p = 15 ↔ ∃ c ∈ p, c.toNat ∈ specialCharCodes) ∧
    (hasSpecialChars p = 0 ↔ ¬ ∃ c ∈ p, c.toNat ∈ specialCharCodes) ∧
    (hasSpecialChars p = 15 ∨ hasSpecialChars p = 0) := by
  unfold hasSpecialChars isSpecialListed
  by_cases h : p.any (fun c => decide (c.toNat ∈ specialCharCodes)) = true
  · have hex : ∃ c ∈ p, c.toNat ∈ specialCharCodes := by
      simpa [List.any_eq_true] using h
    rw [if_pos h]
    exact ⟨by simp [hex], by simp [hex], Or.inl rfl⟩
  · have hex : ¬ ∃ c ∈ p, c.toNat ∈ specialCharCodes := by
      simpa [List.any_eq_true] using h
    rw [if_neg h]
    exact ⟨by simp [hex], by simp [hex], Or.inr rfl⟩

/-- C4: in both variants the score-to-level mapping is a total,
deterministic, non-decreasing step function of the score alone: ranks
never decrease as the score grows over `[0, 100]` (each score yields
exactly one level because the mapping is a function). -/
theorem determineStrengthLevel_monotone (s1 s2 : Int)
    (h0 : 0 ≤ s1) (h12 : s1 ≤ s2) :
    levelRank (PasswordChecker.determineStrengthLevel s1)
      ≤ levelRank (PasswordChecker.determineStrengthLevel s2) ∧
    levelRank (PasswordCheckerV2.determineStrengthLevel s1)
      ≤ levelRank (PasswordCheckerV2.determineStrengthLevel s2) := by
  constructor
  · unfold PasswordChecker.determineStrengthLevel
    split_ifs <;> simp [levelRank] <;> omega
  · unfold PasswordCheckerV2.determineStrengthLevel
    split_ifs <;> simp [levelRank] <;> omega

/-- Witness for C4 at the concrete scores 10 and 95. -/
theorem determineStrengthLevel_monotone_witness :
    levelRank (PasswordChecker.determineStrengthLevel 10)
      ≤ levelRank (PasswordChecker.determineStrengthLevel 95) ∧
    levelRank (PasswordCheckerV2.determineStrengthLevel 10)
      ≤ levelRank (PasswordCheckerV2.determineStrengthLevel 95) :=
  determineStrengthLevel_monotone 10 95 (by decide) (by decide)

/-- Every entry of the Validators weak-password list has length at
least 4, so the length guard of the partial-match loop never rules an
entry out. -/
theorem weak_passwords_length_ge_4 :
    ∀ w ∈ Validators.WEAK_PASSWORDS, 4 ≤ w.length := by decide

/-- A list starts with itself. -/
theorem startsWithL_self (l : Password) : startsWithL l l = true := by
  induction l with
  | nil => rfl
  | cons c s ih => simp [startsWithL, ih]

/-- A list contains itself as a substring. -/
theorem containsL_self (l : Password) : containsL l l = true := by
  cases l with
  | nil => rfl
  | cons c s => simp [containsL, startsWithL_self]

/-- The exact-match test of `checkWeakPassword`, as an existential. -/
theorem weak_exact_iff (p : Password) :
    Validators.WEAK_PASSWORDS.any (fun w => w == toLowerCase p) = true
      ↔ ∃ w ∈ Validators.WEAK_PASSWORDS, toLowerCase p = w := by
  rw [List.any_eq_true]
  constructor
  · rintro ⟨w, hw, hb⟩
    exact ⟨w, hw, (eq_of_beq hb).symm⟩
  · rintro ⟨w, hw, he⟩
    exact ⟨w, hw, beq_iff_eq.mpr he.symm⟩

/-- The partial-match test of `checkWeakPassword`, as an existential. -/
theorem weak_partial_iff (p : Password) :
    Validators.WEAK_PASSWORDS.any
        (fun w => containsL (toLowerCase p) w && decide (4 ≤ w.length)) = true
      ↔ ∃ w ∈ Validators.WEAK_PASSWORDS,
          4 ≤ w.length ∧ containsL (toLowerCase p) w = true := by
  rw [List.any_eq_true]
  constructor
  · rintro ⟨w, hw, hb⟩
    rw [Bool.and_eq_true] at hb
    exact ⟨w, hw, of_decide_eq_true hb.2, hb.1⟩
  · rintro ⟨w, hw, h4, hc⟩
    exact ⟨w, hw, by rw [Bool.and_eq_true]; exact ⟨hc, decide_eq_true h4⟩⟩

/-- C5: the weak-password penalty is 20 exactly on lowercased exact
matches against the static list, 15 when the lowercased password merely
contains a listed entry of length at least 4 (exact matches having been
checked first), and 0 otherwise; the `notWeakPassword` criterion of the
analysis is true exactly when the penalty is 0. -/
theorem notWeakPassword_spec (p : Password) :
    ((∃ w ∈ Validators.WEAK_PASSWORDS, toLowerCase p = w) →
        Validators.checkWeakPassword p = 20) ∧
    ((¬ ∃ w ∈ Validators.WEAK_PASSWORDS, toLowerCase p = w) →
      (∃ w ∈ Validators.WEAK_PASSWORDS,
          4 ≤ w.length ∧ containsL (toLowerCase p) w = true) →
        Validators.checkWeakPassword p = 15) ∧
    ((¬ ∃ w ∈ Validators.WEAK_PASSWORDS,
          4 ≤ w.length ∧ containsL (toLowerCase p) w = true) →
        Validators.checkWeakPassword p = 0) ∧
    (p ≠ [] → (PasswordCheckerV2.analyze p).criteria.notWeakPassword
        = decide (Validators.checkWeakPassword p = 0)) := by
  refine ⟨?_, ?_, ?_, ?_⟩
  · intro hex
    unfold Validators.checkWeakPassword
    rw [if_pos ((weak_exact_iff p).mpr hex)]
  · intro hnex hpart
    unfold Validators.checkWeakPassword
    rw [if_neg (fun hb => hnex ((weak_exact_iff p).mp hb)),
        if_pos ((weak_partial_iff p).mpr hpart)]
  · intro hnpart
    have hnex : ¬ ∃ w ∈ Validators.WEAK_PASSWORDS, toLowerCase p = w := by
      rintro ⟨w, hw, hweq⟩
      exact hnpart ⟨w, hw, by
        have h4 := weak_passwords_length_ge_4 w hw
        exact ⟨h4, hweq ▸ containsL_self w⟩⟩
    unfold Validators.checkWeakPassword
    rw [if_neg (fun hb => hnex ((weak_exact_iff p).mp hb)),
        if_neg (fun hb => hnpart ((weak_partial_iff p).mp hb))]
  · intro hne
    have h : ¬ p.length = 0 := fun h0 => hne (List.length_eq_zero.mp h0)
    simp only [PasswordCheckerV2.analyze, if_neg h]
    rfl

/-- Witness for C5: exact match "password" scores 20, containment
"mypassword!" scores 15, unrelated "zq" scores 0 and satisfies the
criterion. -/
theorem notWeakPassword_spec_witness :
    Validators.checkWeakPassword (String.toList "password") = 20 ∧
    Validators.checkWeakPassword (String.toList "mypassword!") = 15 ∧
    Validators.checkWeakPassword (String.toList "zq") = 0 ∧
    (PasswordCheckerV2.analyze (String.toList "zq")).criteria.notWeakPassword = true := by
  refine ⟨(notWeakPassword_spec _).1 (by decide),
    (notWeakPassword_spec _).2.1 (by decide) (by decide),
    (notWeakPassword_spec _).2.2.1 (by decide), ?_⟩
  rw [(notWeakPassword_spec (String.toList "zq")).2.2.2 (by decide)]
  decide

/-- C7 counterexample: the two variants do not consult the same static
lists, so their raw penalty classifications and criteria booleans
diverge: "guest" is on the Validators weak-password list but not on the
first variant's inline list, and the pattern "stuvwx" exists only in
the Validators pattern list. -/
theorem variants_criteria_differ :
    (PasswordChecker.analyze (String.toList "guest")).criteria.notWeakPassword = true ∧
    (PasswordCheckerV2.analyze (String.toList "guest")).criteria.notWeakPassword = false ∧
    PasswordChecker.checkWeakPassword (String.toList "guest") = 0 ∧
    Validators.checkWeakPassword (String.toList "guest") = 20 ∧
    PasswordChecker.checkSequentialChars (String.toList "xstuvwx") = 5 ∧
    Validators.checkSequentialChars (String.toList "xstuvwx") = 15 := by
  decide

/-- An `any` that succeeds on the first variant's inline weak list also
succeeds on the Validators list, which extends it. -/
theorem weak_any_mono (f : Password → Bool)
    (h : PasswordChecker.weakPasswords.any f = true) :
    Validators.WEAK_PASSWORDS.any f = true := by
  have he : Validators.WEAK_PASSWORDS
      = PasswordChecker.weakPasswords ++
        [String.toList "charlie", String.toList "aa123456", String.toList "donald",
         String.toList "password123", String.toList "qwerty123",
         String.toList "admin123", String.toList "pass", String.toList "test",
         String.toList "guest", String.toList "temp", String.toList "user"] := by
    rfl
  rw [he, List.any_append, h, Bool.true_or]

/-- C7 amended: the variants differ not only in message language and
threshold constants but also in the extent of their static lists: the
first variant's inline weak-password and sequential-pattern lists are
proper prefixes of the Validators lists, so the first variant's weak
and sequential penalties never exceed the second's (and the repeating
penalty and all bonus evaluators are shared verbatim), but the
penalties and criteria are not identical on every password. -/
theorem variant_lists_extension (p : Password) :
    Validators.WEAK_PASSWORDS
      = PasswordChecker.weakPasswords ++
        [String.toList "charlie", String.toList "aa123456", String.toList "donald",
         String.toList "password123", String.toList "qwerty123",
         String.toList "admin123", String.toList "pass", String.toList "test",
         String.toList "guest", String.toList "temp", String.toList "user"] ∧
    Validators.SEQUENTIAL_PATTERNS
      = PasswordChecker.sequentialPatterns ++
        [String.toList "pqrstu", String.toList "qrstuv", String.toList "rstuvw",
         String.toList "stuvwx", String.toList "tuvwxy", String.toList "uvwxyz"] ∧
    PasswordChecker.checkWeakPassword p ≤ Validators.checkWeakPassword p ∧
    PasswordChecker.checkSequentialChars p ≤ Validators.checkSequentialChars p := by
  refine ⟨rfl, rfl, ?_, ?_⟩
  · unfold PasswordChecker.checkWeakPassword Validators.checkWeakPassword
    by_cases h1 : PasswordChecker.weakPasswords.any (fun w => w == toLowerCase p) = true
    · rw [if_pos h1, if_pos (weak_any_mono _ h1)]
    · rw [if_neg h1]
      by_cases h2 : PasswordChecker.weakPasswords.any
          (fun w => containsL (toLowerCase p) w && decide (4 ≤ w.length)) = true
      · rw [if_pos h2]
        by_cases h3 : Validators.WEAK_PASSWORDS.any (fun w => w == toLowerCase p) = true
        · rw [if_pos h3]; omega
        · rw [if_neg h3, if_pos (weak_any_mono _ h2)]
      · rw [if_neg h2]
        split_ifs <;> omega
  · unfold PasswordChecker.checkSequentialChars Validators.checkSequentialChars
    have hcount : ((PasswordChecker.sequentialPatterns.filter
          (fun pat => containsL (toLowerCase p) pat)).length)
        ≤ ((Validators.SEQUENTIAL_PATTERNS.filter
          (fun pat => containsL (toLowerCase p) pat)).length) := by
      have he : Validators.SEQUENTIAL_PATTERNS
          = PasswordChecker.sequentialPatterns ++
            [String.toList "pqrstu", String.toList "qrstuv", String.toList "rstuvw",
             String.toList "stuvwx", String.toList "tuvwxy", String.toList "uvwxyz"] := rfl
      rw [he, List.filter_append, List.length_append]
      omega
    apply min_le_min _ le_rfl
    omega

/-- The length contribution is at most 30. -/
theorem checkLength_le (p : Password) : checkLength p ≤ 30 := by
  unfold checkLength; split_ifs <;> omega

/-- The lowercase contribution is at most 10. -/
theorem hasLowercase_le (p : Password) : hasLowercase p ≤ 10 := by
  unfold hasLowercase; split_ifs <;> omega

/-- The uppercase contribution is at most 10. -/
theorem hasUppercase_le (p : Password) : hasUppercase p ≤ 10 := by
  unfold hasUppercase; split_ifs <;> omega

/-- The digit contribution is at most 10. -/
theorem hasNumbers_le (p : Password) : hasNumbers p ≤ 10 := by
  unfold hasNumbers; split_ifs <;> omega

/-- The special-character contribution is at most 15. -/
theorem hasSpecialChars_le (p : Password) : hasSpecialChars p ≤ 15 := by
  unfold hasSpecialChars; split_ifs <;> omega

/-- The variety bonus is at most 10. -/
theorem checkCharacterVariety_le (p : Password) : checkCharacterVariety p ≤ 10 := by
  unfold checkCharacterVariety; split_ifs <;> omega

/-- The raw pre-clamp total of any validation record with the per-rule
bonus bounds is at most 85. -/
theorem rawTotal_le_85 (v : ValidationResults) (h1 : v.length ≤ 30)
    (h2 : v.hasLowercase ≤ 10) (h3 : v.hasUppercase ≤ 10) (h4 : v.hasNumbers ≤ 10)
    (h5 : v.hasSpecialChars ≤ 15) (h6 : v.varietyBonus ≤ 10) :
    rawTotal v ≤ 85 := by
  unfold rawTotal; omega

/-- C10: the score of both variants never exceeds 85 — the bonus table
sums to at most 30 + 10 + 10 + 10 + 15 + 10 = 85 and penalties only
lower the total — so the upper clamp at 100 is never the binding bound
and scores in `[86, 100]` are unreachable; the bound is attained at
"Tr0ub4dor&9Zx". -/
theorem analyze_score_le_85 (p : Password) :
    (PasswordChecker.analyze p).score ≤ 85 ∧
    (PasswordCheckerV2.analyze p).score ≤ 85 ∧
    (PasswordChecker.analyze (String.toList "Tr0ub4dor&9Zx")).score = 85 ∧
    (PasswordCheckerV2.analyze (String.toList "Tr0ub4dor&9Zx")).score = 85 := by
  have hb : ∀ q : Password, rawTotal (PasswordChecker.runAllValidations q) ≤ 85 ∧
      rawTotal (Validators.runAllValidations q) ≤ 85 := by
    intro q
    constructor <;>
      exact rawTotal_le_85 _ (checkLength_le q) (hasLowercase_le q) (hasUppercase_le q)
        (hasNumbers_le q) (hasSpecialChars_le q) (checkCharacterVariety_le q)
  refine ⟨?_, ?_, by decide, by decide⟩
  · by_cases h : p.length = 0
    · simp only [PasswordChecker.analyze, if_pos h]; decide
    · simp only [PasswordChecker.analyze, if_neg h]
      exact clamp01to100_le_85 _ (hb p).1
  · by_cases h : p.length = 0
    · simp only [PasswordCheckerV2.analyze, if_pos h]; decide
    · simp only [PasswordCheckerV2.analyze, if_neg h]
      exact clamp01to100_le_85 _ (hb p).2

/-- A conditional singleton emitted in the else-branch fits its slot. -/
theorem ite_nil_right_sublist {α : Type} (b : Bool) (x : α) :
    List.Sublist (if b then ([] : List α) else [x]) [x] := by
  cases b
  · exact List.Sublist.refl [x]
  · exact List.nil_sublist [x]

/-- A conditional singleton emitted in the then-branch fits its slot. -/
theorem ite_nil_left_sublist {α : Type} (b : Prop) [Decidable b] (x : α) :
    List.Sublist (if b then [x] else ([] : List α)) [x] := by
  split_ifs
  · exact List.Sublist.refl [x]
  · exact List.nil_sublist [x]

/-- The two-tier closing message fits its two template slots. -/
theorem closing_sublist {α : Type} (b1 b2 : Prop) [Decidable b1] [Decidable b2]
    (x y : α) :
    List.Sublist (if b1 then [x] else if b2 then [y] else ([] : List α)) [x, y] := by
  split_ifs
  · exact List.Sublist.cons₂ x (List.nil_sublist [y])
  · exact List.Sublist.cons x (List.Sublist.refl [y])
  · exact List.nil_sublist [x, y]

/-- The entries after the mandatory length message of the first
variant's feedback appear in the fixed template order. -/
theorem generateFeedback_tail_sublist (p : Password) (c : Criteria) :
    List.Sublist (PasswordChecker.generateFeedback p c).tail feedbackTailTemplate := by
  have ht : feedbackTailTemplate
      = ["Missing lowercase letters. Add some lowercase letters (a-z)."] ++
        ["Missing uppercase letters. Add some uppercase letters (A-Z)."] ++
        ["Missing numbers. Add some numbers (0-9)."] ++
        ["Missing special characters. Add some special characters (!@#$%^&* etc.)."] ++
        ["Contains repeating characters. Try to avoid character repetitions."] ++
        ["Password contains common words or patterns."] ++
        ["Contains sequential characters (like abc, 123)."] ++
        ["Excellent! Your password meets most security criteria.",
         "Good start! Your password could be stronger with more variety."] := rfl
  rw [ht]
  show List.Sublist (_ ++ _ ++ _ ++ _ ++ _ ++ _ ++ _ ++ _) _
  exact List.Sublist.append (List.Sublist.append (List.Sublist.append (List.Sublist.append (List.Sublist.append (List.Sublist.append (List.Sublist.append (ite_nil_right_sublist _ _) (ite_nil_right_sublist _ _)) (ite_nil_right_sublist _ _)) (ite_nil_right_sublist _ _)) (ite_nil_right_sublist _ _)) (ite_nil_right_sublist _ _)) (ite_nil_right_sublist _ _)) (closing_sublist _ _ _ _)

/-- The suggestions of the first variant appear in the fixed template
order: optional header, unmet-criterion bullets in rule order, then the
score-gated encouragements. -/
theorem generateSuggestions_sublist (c : Criteria) (score : Int) :
    List.Sublist (PasswordChecker.generateSuggestions c score) suggestionTemplate := by
  have ht : suggestionTemplate
      = ["To strengthen your password:"] ++
        ["• Increase length to at least 12 characters"] ++
        ["• Add lowercase letters (a-z)"] ++
        ["• Add uppercase letters (A-Z)"] ++
        ["• Add numbers (0-9)"] ++
        ["• Add special characters (!@#$%^&* etc.)"] ++
        ["• Avoid repeating the same character multiple times"] ++
        ["• Avoid common words and predictable patterns"] ++
        ["• Avoid sequential characters (abc, 123, etc.)"] ++
        ["Good job! Your password has decent security."] ++
        ["Excellent! Your password is very secure."] := rfl
  rw [ht]
  unfold PasswordChecker.generateSuggestions
  exact List.Sublist.append (List.Sublist.append (List.Sublist.append (List.Sublist.append (List.Sublist.append (List.Sublist.append (List.Sublist.append (List.Sublist.append (List.Sublist.append (List.Sublist.append (ite_nil_left_sublist _ _) (ite_nil_right_sublist _ _)) (ite_nil_right_sublist _ _)) (ite_nil_right_sublist _ _)) (ite_nil_right_sublist _ _)) (ite_nil_right_sublist _ _)) (ite_nil_right_sublist _ _)) (ite_nil_right_sublist _ _)) (ite_nil_right_sublist _ _)) (ite_nil_left_sublist _ _)) (ite_nil_left_sublist _ _)

/-- The suggestions list cannot be empty as soon as the score is below
50, some criterion fails, or the score reaches 70. -/
theorem generateSuggestions_ne_nil (c : Criteria) (score : Int)
    (h : score < 50 ∨ c.length = false ∨ c.hasLowercase = false ∨
      c.hasUppercase = false ∨ c.hasNumbers = false ∨ c.hasSpecialChars = false ∨
      c.noRepeatingChars = false ∨ c.notWeakPassword = false ∨
      c.noSequentialChars = false ∨ 70 ≤ score) :
    PasswordChecker.generateSuggestions c score ≠ [] := by
  unfold PasswordChecker.generateSuggestions
  rcases h with h | h | h | h | h | h | h | h | h | h <;>
    simp [h, List.append_eq_nil]

/-- A character of the literal special class is outside the
alphanumeric set. -/
theorem special_nonalnum (c : Char) (h : isSpecialListed c = true) :
    isNonAlnum c = true := by
  have hmem : c.toNat ∈ specialCharCodes := of_decide_eq_true h
  simp only [specialCharCodes, List.mem_cons, List.not_mem_nil, or_false] at hmem
  simp only [isNonAlnum, isLowerAZ, isUpperAZ, isDigit09, Bool.not_eq_true',
    Bool.or_eq_false_iff, Bool.and_eq_false_iff, decide_eq_false_iff_not, not_le]
  omega

/-- When all eight criteria of the first variant hold, the clamped
score is at least 70 (in fact at least 75), so the score-gated
encouragement is emitted. -/
theorem all_criteria_score_ge_70 (p : Password)
    (hL : (criteriaOf (PasswordChecker.runAllValidations p)).length = true)
    (hl : (criteriaOf (PasswordChecker.runAllValidations p)).hasLowercase = true)
    (hu : (criteriaOf (PasswordChecker.runAllValidations p)).hasUppercase = true)
    (hn : (criteriaOf (PasswordChecker.runAllValidations p)).hasNumbers = true)
    (hs : (criteriaOf (PasswordChecker.runAllValidations p)).hasSpecialChars = true)
    (hr : (criteriaOf (PasswordChecker.runAllValidations p)).noRepeatingChars = true)
    (hw : (criteriaOf (PasswordChecker.runAllValidations p)).notWeakPassword = true)
    (hq : (criteriaOf (PasswordChecker.runAllValidations p)).noSequentialChars = true) :
    70 ≤ clamp01to100 (rawTotal (PasswordChecker.runAllValidations p)) := by
  have hL' : 20 ≤ checkLength p := of_decide_eq_true hL
  have hl' : 0 < hasLowercase p := of_decide_eq_true hl
  have hu' : 0 < hasUppercase p := of_decide_eq_true hu
  have hn' : 0 < hasNumbers p := of_decide_eq_true hn
  have hs' : 0 < hasSpecialChars p := of_decide_eq_true hs
  have hr' : checkRepeatingChars p = 0 := of_decide_eq_true hr
  have hw' : PasswordChecker.checkWeakPassword p = 0 := of_decide_eq_true hw
  have hq' : PasswordChecker.checkSequentialChars p = 0 := of_decide_eq_true hq
  have ha1 : p.any isLowerAZ = true := by
    by_contra hx
    simp only [Bool.not_eq_true] at hx
    simp [hasLowercase, hx] at hl'
  have ha2 : p.any isUpperAZ = true := by
    by_contra hx
    simp only [Bool.not_eq_true] at hx
    simp [hasUppercase, hx] at hu'
  have ha3 : p.any isDigit09 = true := by
    by_contra hx
    simp only [Bool.not_eq_true] at hx
    simp [hasNumbers, hx] at hn'
  have ha0 : p.any isSpecialListed = true := by
    by_contra hx
    simp only [Bool.not_eq_true] at hx
    simp [hasSpecialChars, hx] at hs'
  have ha4 : p.any isNonAlnum = true := by
    rcases List.any_eq_true.mp ha0 with ⟨c, hc, hcs⟩
    exact List.any_eq_true.mpr ⟨c, hc, special_nonalnum c hcs⟩
  have hv : checkCharacterVariety p = 10 := by
    simp [checkCharacterVariety, ha1, ha2, ha3, ha4]
  have e1 : hasLowercase p = 10 := by simp [hasLowercase, ha1]
  have e2 : hasUppercase p = 10 := by simp [hasUppercase, ha2]
  have e3 : hasNumbers p = 10 := by simp [hasNumbers, ha3]
  have e4 : hasSpecialChars p = 15 := by simp [hasSpecialChars, ha0]
  have hsum : 75 ≤ rawTotal (PasswordChecker.runAllValidations p) := by
    simp [rawTotal, PasswordChecker.runAllValidations, e1, e2, e3, e4, hv,
      hr', hw', hq']
    omega
  unfold clamp01to100
  omega

/-- C8: for every non-empty password the first variant returns
non-empty feedback and suggestions; the feedback opens with the length
message and its remaining entries follow the fixed rule order, and the
suggestions are a subsequence of the fixed ordered template (header,
bullets for unmet criteria in rule order, encouragements). -/
theorem feedback_suggestions_nonempty_ordered (p : Password) (hne : p ≠ []) :
    (PasswordChecker.analyze p).feedback ≠ [] ∧
    (PasswordChecker.analyze p).suggestions ≠ [] ∧
    (PasswordChecker.analyze p).feedback.head?
      = some (PasswordChecker.lengthFeedbackMsg p.length) ∧
    List.Sublist (PasswordChecker.analyze p).feedback.tail feedbackTailTemplate ∧
    List.Sublist (PasswordChecker.analyze p).suggestions suggestionTemplate := by
  have h : ¬ p.length = 0 := fun h0 => hne (List.length_eq_zero.mp h0)
  simp only [PasswordChecker.analyze, if_neg h]
  refine ⟨?_, ?_, ?_, ?_, ?_⟩
  · simp [PasswordChecker.generateFeedback]
  · apply generateSuggestions_ne_nil
    rcases Or.symm (Bool.eq_false_or_eq_true
        (criteriaOf (PasswordChecker.runAllValidations p)).length) with h1 | h1
    · exact Or.inr (Or.inl h1)
    rcases Or.symm (Bool.eq_false_or_eq_true
        (criteriaOf (PasswordChecker.runAllValidations p)).hasLowercase) with h2 | h2
    · exact Or.inr (Or.inr (Or.inl h2))
    rcases Or.symm (Bool.eq_false_or_eq_true
        (criteriaOf (PasswordChecker.runAllValidations p)).hasUppercase) with h3 | h3
    · exact Or.inr (Or.inr (Or.inr (Or.inl h3)))
    rcases Or.symm (Bool.eq_false_or_eq_true
        (criteriaOf (PasswordChecker.runAllValidations p)).hasNumbers) with h4 | h4
    · exact Or.inr (Or.inr (Or.inr (Or.inr (Or.inl h4))))
    rcases Or.symm (Bool.eq_false_or_eq_true
        (criteriaOf (PasswordChecker.runAllValidations p)).hasSpecialChars) with h5 | h5
    · exact Or.inr (Or.inr (Or.inr (Or.inr (Or.inr (Or.inl h5)))))
    rcases Or.symm (Bool.eq_false_or_eq_true
        (criteriaOf (PasswordChecker.runAllValidations p)).noRepeatingChars) with h6 | h6
    · exact Or.inr (Or.inr (Or.inr (Or.inr (Or.inr (Or.inr (Or.inl h6))))))
    rcases Or.symm (Bool.eq_false_or_eq_true
        (criteriaOf (PasswordChecker.runAllValidations p)).notWeakPassword) with h7 | h7
    · exact Or.inr (Or.inr (Or.inr (Or.inr (Or.inr (Or.inr (Or.inr (Or.inl h7)))))))
    rcases Or.symm (Bool.eq_false_or_eq_true
        (criteriaOf (PasswordChecker.runAllValidations p)).noSequentialChars) with h8 | h8
    · exact Or.inr (Or.inr (Or.inr (Or.inr (Or.inr (Or.inr (Or.inr (Or.inr (Or.inl h8))))))))
    exact Or.inr (Or.inr (Or.inr (Or.inr (Or.inr (Or.inr (Or.inr (Or.inr (Or.inr
      (all_criteria_score_ge_70 p h1 h2 h3 h4 h5 h6 h7 h8)))))))))
  · simp [PasswordChecker.generateFeedback]
  · exact generateFeedback_tail_sublist p _
  · exact generateSuggestions_sublist _ _

/-- Witness for C8 at the concrete password "abc". -/
theorem feedback_suggestions_nonempty_ordered_witness :
    (PasswordChecker.analyze (String.toList "abc")).feedback ≠ [] ∧
    (PasswordChecker.analyze (String.toList "abc")).suggestions ≠ [] :=
  ⟨(feedback_suggestions_nonempty_ordered (String.toList "abc") (by decide)).1,
   (feedback_suggestions_nonempty_ordered (String.toList "abc") (by decide)).2.1⟩

end PasswordStrength
